import Mathlib

/-!
Shallow embedding of the NexuralFlow market-data gateway
(websocket-server/polygon-client.go and websocket-server/api-handlers.go),
together with theorems settling the specification claims about it.

Conventions of the embedding:
* Go maps with value sets are lists kept duplicate-free by guarded insert;
  Go maps with counted values (`polygonSymbols`) are functions `String → Nat`
  where a count of 0 stands for an absent entry (the Go code only ever stores
  counts ≥ 1 and deletes entries instead of storing 0).
* Frames written to the upstream socket are accumulated in a `sent` list so
  that theorems can speak about which frames the code emits.
* Wall-clock times are integers (seconds for the stale sweeper, an opaque
  tick for message timestamps) passed in explicitly where the Go code calls
  `time.Now()`.
* Goroutine interleavings collapse to the deterministic order the code
  forces: `Connect` closing the socket makes the reader loop fail its next
  read, after which its deferred cleanup (including `scheduleReconnect`)
  runs; this sequence is modelled as one function.
-/

namespace NexuralFlow

/-- One JSON frame written to the upstream Polygon socket,
`{"action": ..., "params": ...}` (PolygonAuthMessage / PolygonSubscribeMessage). -/
structure Frame where
  action : String
  params : String
deriving DecidableEq, Repr

/-- Data record from the upstream feed (struct PolygonMessage in
polygon-client.go). The aggregate-bar fields (o/h/l/c/v/vw) and the raw
bytes are carried verbatim by the Go struct but are never consulted by the
subscription, routing or broadcast logic, so they are omitted here. -/
structure PolygonMessage where
  eventType : String
  symbol : String
  price : Rat
  size : Nat
  exchange : Int
  timestamp : Int
  bidPrice : Rat
  bidSize : Nat
  askPrice : Rat
  askSize : Nat
deriving DecidableEq, Repr

/-- Downstream server-to-client message (struct Message in api-handlers.go).
`data` is `interface{}` in Go; the only non-nil payload ever placed there by
the core is the PolygonMessage of a broadcast, so it is an Option here.
The Metadata map (source/event_type/exchange) never influences routing and
is omitted. -/
structure Message where
  type : String
  channel : String
  data : Option PolygonMessage
  timestamp : Int
  symbols : List String
deriving DecidableEq, Repr

/-- State of the upstream session (struct PolygonClient in
polygon-client.go), with the emitted frames recorded in `sent`. -/
structure PolygonClient where
  apiKey : String
  connected : Bool
  authenticated : Bool
  subscriptions : List String
  reconnectDelay : Nat
  maxRetries : Nat
  retryCount : Nat
  sent : List Frame
deriving DecidableEq, Repr

/-- NewPolygonClient: reconnectDelay 5 seconds, maxRetries 10. -/
def NewPolygonClient (apiKey : String) : PolygonClient :=
  { apiKey := apiKey
    connected := false
    authenticated := false
    subscriptions := []
    reconnectDelay := 5
    maxRetries := 10
    retryCount := 0
    sent := [] }

/-- IsConnected: `pc.connected && pc.authenticated`. -/
def PolygonClient.IsConnected (pc : PolygonClient) : Bool :=
  pc.connected && pc.authenticated

/-- The per-symbol subscription tokens emitted by Subscribe/Unsubscribe:
trades, quotes and second aggregates for one symbol. -/
def symbolTokens (s : String) : List String :=
  ["T." ++ s, "Q." ++ s, "A." ++ s]

/-- Set-insert used to model writes into Go map-as-set values. -/
def insertOnce (l : List String) (s : String) : List String :=
  if s ∈ l then l else l ++ [s]

/-- Subscribe (polygon-client.go): requires connected and authenticated,
builds the `T.S,Q.S,A.S` token list over the symbols in order, records each
symbol in the subscription set, and writes one subscribe frame. -/
def PolygonClient.Subscribe (pc : PolygonClient) (symbols : List String) :
    Except String PolygonClient :=
  if pc.connected && pc.authenticated then
    let params := symbols.foldl (fun acc s => acc ++ symbolTokens s) []
    let subs := symbols.foldl insertOnce pc.subscriptions
    .ok { pc with
            subscriptions := subs
            sent := pc.sent ++ [⟨"subscribe", String.intercalate "," params⟩] }
  else .error "not connected or authenticated"

/-- Unsubscribe (polygon-client.go): requires connected only, removes the
symbols from the subscription set and writes one unsubscribe frame. -/
def PolygonClient.Unsubscribe (pc : PolygonClient) (symbols : List String) :
    Except String PolygonClient :=
  if pc.connected then
    let params := symbols.foldl (fun acc s => acc ++ symbolTokens s) []
    let subs := symbols.foldl (fun acc s => acc.filter (fun x => x ≠ s)) pc.subscriptions
    .ok { pc with
            subscriptions := subs
            sent := pc.sent ++ [⟨"unsubscribe", String.intercalate "," params⟩] }
  else .error "not connected"

/-- scheduleReconnect (polygon-client.go): gives up once retryCount has
reached maxRetries; otherwise increments the counter and arms a timer for
`reconnectDelay * retryCount` seconds (the returned Option). -/
def PolygonClient.scheduleReconnect (pc : PolygonClient) : PolygonClient × Option Nat :=
  if pc.maxRetries ≤ pc.retryCount then (pc, none)
  else
    let rc := pc.retryCount + 1
    ({ pc with retryCount := rc }, some (pc.reconnectDelay * rc))

/-- Connect (polygon-client.go) together with the deterministic follow-up of
the reader goroutine it spawns. Inputs say whether the dial succeeds and
whether the upstream grants authentication within the 2-second wait.
Returns (final client state, whether Connect returned an error, the
reconnect delay armed by the reader teardown, if any).
The execution order modelled is forced by the code: on dial success the
retry counter is reset and the auth frame is written; if no auth_success
status arrives, authenticate fails, Connect closes the socket, the reader
loop breaks on the closed socket, and its deferred cleanup clears the flags
and calls scheduleReconnect. -/
def PolygonClient.ConnectOutcome (pc : PolygonClient) (dialOk authGranted : Bool) :
    PolygonClient × Bool × Option Nat :=
  if dialOk then
    let pc1 := { pc with
                   connected := true
                   retryCount := 0
                   sent := pc.sent ++ [Frame.mk "auth" pc.apiKey] }
    if authGranted then ({ pc1 with authenticated := true }, false, none)
    else
      let pc2 := { pc1 with connected := false, authenticated := false }
      let r := pc2.scheduleReconnect
      (r.1, true, r.2)
  else (pc, true, none)

/-- One downstream session (struct Client in api-handlers.go): its key set
(`client.subscriptions`), its bounded outbound queue (`send`, a channel of
capacity 256) and the teardown flag standing for a closed queue. -/
structure Client where
  id : Nat
  subscriptions : List String
  send : List Message
  sendClosed : Bool
  lastSeen : Int
deriving DecidableEq, Repr

/-- Capacity of the per-client outbound channel, `make(chan []byte, 256)`. -/
def sendCap : Nat := 256

/-- A freshly accepted client (handleWebSocket): empty subscription set,
empty queue of capacity 256, lastSeen initialised to now. -/
def mkClient (cid : Nat) (now : Int) : Client :=
  { id := cid, subscriptions := [], send := [], sendClosed := false, lastSeen := now }

/-- sendMessage (api-handlers.go): non-blocking try-send on the bounded
channel; when the channel is full the message is dropped (only a log line is
emitted) and nothing else in the client changes. A send on a torn-down
session is likewise modelled as a drop. -/
def Client.sendMessage (c : Client) (msg : Message) : Client :=
  if c.sendClosed then c
  else if c.send.length < sendCap then { c with send := c.send ++ [msg] }
  else c

/-- Process-wide server state: the `clients` registry (with each client's
own state inlined), the `subscriptions` routing table (channel key → set of
client ids), the `polygonSymbols` reference counts (0 = absent entry) and
the optional upstream client (`polygonClient`, nil when disabled). -/
structure ServerState where
  clients : List Client
  subscriptions : String → List Nat
  polygonSymbols : String → Nat
  polygon : Option PolygonClient

/-- A server in its start-of-day state with a given upstream client. -/
def emptyServer (pc : Option PolygonClient) : ServerState :=
  { clients := [], subscriptions := fun _ => [], polygonSymbols := fun _ => 0,
    polygon := pc }

/-- registerClient: insert into the clients registry. -/
def ServerState.registerClient (st : ServerState) (c : Client) : ServerState :=
  { st with clients := st.clients ++ [c] }

/-- Apply a function to the client with the given id (pointer update through
the shared registry in Go). -/
def ServerState.updateClient (st : ServerState) (cid : Nat) (f : Client → Client) :
    ServerState :=
  { st with clients := st.clients.map (fun c => if c.id = cid then f c else c) }

/-- Enqueue a message on one client's outbound queue via sendMessage. -/
def ServerState.sendToClient (st : ServerState) (cid : Nat) (msg : Message) : ServerState :=
  st.updateClient cid (fun c => c.sendMessage msg)

/-- The outbound queue of the client with the given id (empty if absent). -/
def ServerState.clientQueue (st : ServerState) (cid : Nat) : List Message :=
  match st.clients.find? (fun c => c.id == cid) with
  | some c => c.send
  | none => []

/-- The channel-key set of the client with the given id (empty if absent). -/
def ServerState.clientKeys (st : ServerState) (cid : Nat) : List String :=
  match st.clients.find? (fun c => c.id == cid) with
  | some c => c.subscriptions
  | none => []

/-- Pointwise update of a string-indexed map. -/
def setAt {α : Type} (m : String → α) (k : String) (v : α) : String → α :=
  fun x => if x = k then v else m x

/-- The reference-count loop of subscribeToPolygon: for each symbol in
order, an existing entry is incremented, a missing one is set to 1 and the
symbol is appended to the new-symbols list handed to the upstream Subscribe. -/
def acquireSymbols (counts : String → Nat) : List String → (String → Nat) × List String
  | [] => (counts, [])
  | s :: rest =>
    if 0 < counts s then acquireSymbols (setAt counts s (counts s + 1)) rest
    else
      let r := acquireSymbols (setAt counts s 1) rest
      (r.1, s :: r.2)

/-- The reference-count loop of unsubscribeFromPolygon: a missing entry is
skipped, a count of at most 1 deletes the entry and appends the symbol to
the remove list handed to the upstream Unsubscribe, a larger count is
decremented. -/
def releaseSymbols (counts : String → Nat) : List String → (String → Nat) × List String
  | [] => (counts, [])
  | s :: rest =>
    if 0 < counts s then
      if counts s ≤ 1 then
        let r := releaseSymbols (setAt counts s 0) rest
        (r.1, s :: r.2)
      else releaseSymbols (setAt counts s (counts s - 1)) rest
    else releaseSymbols counts rest

/-- subscribeToPolygon (api-handlers.go): no-op when the upstream client is
nil or not IsConnected; otherwise runs the refcount loop and, when some
symbols were new, issues one upstream Subscribe for exactly those (a failed
write is only logged). -/
def ServerState.subscribeToPolygon (st : ServerState) (symbols : List String) : ServerState :=
  match st.polygon with
  | none => st
  | some pc =>
    if pc.IsConnected then
      let r := acquireSymbols st.polygonSymbols symbols
      let pc2 :=
        if r.2 ≠ [] then
          match pc.Subscribe r.2 with
          | .ok pc2 => pc2
          | .error _ => pc
        else pc
      { st with polygonSymbols := r.1, polygon := some pc2 }
    else st

/-- unsubscribeFromPolygon (api-handlers.go): no-op when the upstream client
is nil or not IsConnected; otherwise runs the release loop and, when some
symbols hit zero, issues one upstream Unsubscribe for exactly those.
This function has no caller anywhere in the repository. -/
def ServerState.unsubscribeFromPolygon (st : ServerState) (symbols : List String) :
    ServerState :=
  match st.polygon with
  | none => st
  | some pc =>
    if pc.IsConnected then
      let r := releaseSymbols st.polygonSymbols symbols
      let pc2 :=
        if r.2 ≠ [] then
          match pc.Unsubscribe r.2 with
          | .ok pc2 => pc2
          | .error _ => pc
        else pc
      { st with polygonSymbols := r.1, polygon := some pc2 }
    else st

/-- The channel key recorded by Client.subscribe: the bare channel when no
symbols are given, otherwise channel + ":" + first symbol (the code comment
reads "Simplified for now"). -/
def subscriptionKey (channel : String) (symbols : List String) : String :=
  match symbols with
  | [] => channel
  | s :: _ => channel ++ ":" ++ s

/-- Client.subscribe (api-handlers.go): record the key in the client's own
set and in the global routing table, trigger subscribeToPolygon when symbols
were given and the channel is trades, quotes or market-data, then enqueue
the subscribed confirmation. -/
def ServerState.clientSubscribe (st : ServerState) (cid : Nat) (channel : String)
    (symbols : List String) (now : Int) : ServerState :=
  let key := subscriptionKey channel symbols
  let st1 := st.updateClient cid (fun c =>
    { c with subscriptions := insertOnce c.subscriptions key })
  let entry :=
    if cid ∈ st1.subscriptions key then st1.subscriptions key
    else st1.subscriptions key ++ [cid]
  let st2 := { st1 with subscriptions := setAt st1.subscriptions key entry }
  let st3 :=
    if symbols ≠ [] ∧ (channel = "trades" ∨ channel = "quotes" ∨ channel = "market-data")
    then st2.subscribeToPolygon symbols
    else st2
  st3.sendToClient cid
    { type := "subscribed", channel := channel, data := none, timestamp := now,
      symbols := symbols }

/-- The registry half of Client.unsubscribe: delete the channel string from
the client's own key set and remove the client from the routing-table entry
of that exact string. Symbols carried by the unsubscribe request are ignored
by the code, and keys of the form channel:symbol are untouched. -/
def ServerState.unsubscribeRegistryUpdate (st : ServerState) (cid : Nat)
    (channel : String) : ServerState :=
  let st1 := st.updateClient cid (fun c =>
    { c with subscriptions := c.subscriptions.filter (fun k => k ≠ channel) })
  let entry := (st1.subscriptions channel).filter (fun i => i ≠ cid)
  { st1 with subscriptions := setAt st1.subscriptions channel entry }

/-- Client.unsubscribe (api-handlers.go): the registry update followed by
the unsubscribed confirmation, in that order. -/
def ServerState.clientUnsubscribe (st : ServerState) (cid : Nat) (channel : String)
    (now : Int) : ServerState :=
  (st.unsubscribeRegistryUpdate cid channel).sendToClient cid
    { type := "unsubscribed", channel := channel, data := none, timestamp := now,
      symbols := [] }

/-- unregisterClient (api-handlers.go): if the client is registered, remove
it from the clients registry, close its queue, and remove it from the
routing-table entry of every key in its own subscription set. The
polygonSymbols reference counts are not touched by this function. -/
def ServerState.unregisterClient (st : ServerState) (cid : Nat) : ServerState :=
  match st.clients.find? (fun c => c.id == cid) with
  | none => st
  | some c =>
    { st with
        clients := st.clients.filter (fun c2 => c2.id ≠ cid)
        subscriptions := fun k =>
          if k ∈ c.subscriptions then (st.subscriptions k).filter (fun i => i ≠ cid)
          else st.subscriptions k }

/-- The broadcast delivery step of handleMessages: look up the routing-table
entry of exactly the message's channel string and try-send the message to
each client in it. -/
def ServerState.deliverBroadcast (st : ServerState) (msg : Message) : ServerState :=
  let ids := st.subscriptions msg.channel
  { st with clients := st.clients.map (fun c =>
      if c.id ∈ ids then c.sendMessage msg else c) }

/-- Channel chosen by TransformPolygonMessage from the upstream event type:
T → trades, Q → quotes, A and AM → aggregates, anything else stays
market-data. -/
def polygonChannel (eventType : String) : String :=
  if eventType = "T" then "trades"
  else if eventType = "Q" then "quotes"
  else if eventType = "A" then "aggregates"
  else if eventType = "AM" then "aggregates"
  else "market-data"

/-- TransformPolygonMessage (polygon-client.go): wrap the upstream record in
a market-data message on the kind-derived channel, tagged with the record's
symbol. -/
def TransformPolygonMessage (pm : PolygonMessage) (now : Int) : Message :=
  { type := "market-data", channel := polygonChannel pm.eventType, data := some pm,
    timestamp := now, symbols := [pm.symbol] }

/-- handlePolygonMessage restricted to the broadcast path: transform the
record and run the handleMessages delivery step (the cache and database
side-writes are out of scope and touch none of this state). -/
def ServerState.handlePolygonMessage (st : ServerState) (pm : PolygonMessage)
    (now : Int) : ServerState :=
  st.deliverBroadcast (TransformPolygonMessage pm now)

/-- Period of the cleanupStaleConnections ticker, in seconds. -/
def cleanupInterval : Nat := 60

/-- Stale threshold of cleanupStaleConnections, in seconds. -/
def staleThreshold : Int := 120

/-- One tick of cleanupStaleConnections: snapshot the clients whose
last-seen is more than 120 seconds old, then close each one, which drives
its readPump teardown, i.e. unregisterClient. -/
def ServerState.cleanupSweep (st : ServerState) (now : Int) : ServerState :=
  let stale := (st.clients.filter (fun c => staleThreshold < now - c.lastSeen)).map
    (fun c => c.id)
  stale.foldl (fun acc cid => acc.unregisterClient cid) st

/-- The frames written so far to the upstream socket (empty when the
upstream client is nil). -/
def ServerState.upstreamFrames (st : ServerState) : List Frame :=
  match st.polygon with
  | some pc => pc.sent
  | none => []

/-- Matching rule as the specification states it: a channel key matches an
event when it is the event's kind-derived channel itself (symbol-scope ALL)
or that channel scoped to the event's symbol. Stated from the spec text for
comparison with the exact-string routing the code performs. -/
def specKeyMatches (key : String) (pm : PolygonMessage) : Bool :=
  key == polygonChannel pm.eventType ||
  key == polygonChannel pm.eventType ++ ":" ++ pm.symbol

/-- Coverage predicate from the refcount-soundness claim: a channel key
covers a symbol when its symbol scope is that symbol. -/
def keyCoversSymbol (key symbol : String) : Bool :=
  key.endsWith (":" ++ symbol)

/-- Number of live sessions whose client subscriptions cover the symbol:
the right-hand side of the refcount-soundness invariant. -/
def ServerState.sessionsCovering (st : ServerState) (symbol : String) : Nat :=
  (st.clients.filter
    (fun c => c.subscriptions.any (fun k => keyCoversSymbol k symbol))).length

/-- Iterated sendMessage: n consecutive broadcast enqueue attempts on one
client. -/
def sendRepeat (msg : Message) : Nat → Client → Client
  | 0, c => c
  | n + 1, c => sendRepeat msg n (c.sendMessage msg)

/-- Upstream client as it stands right after a successful connect and
authentication, with the frame log started fresh. -/
def pcReady : PolygonClient :=
  { NewPolygonClient "key" with connected := true, authenticated := true }

/-- Upstream client that has already burned six reconnect attempts. -/
def pcAttempt6 : PolygonClient :=
  { NewPolygonClient "key" with retryCount := 6 }

/-- The upstream trade record of the single-subscriber scenario:
`{"ev":"T","sym":"AAPL","p":150.25,"s":100,"x":4,"t":1700000000000}`. -/
def tradeAAPL : PolygonMessage :=
  { eventType := "T", symbol := "AAPL", price := 150.25, size := 100, exchange := 4,
    timestamp := 1700000000000, bidPrice := 0, bidSize := 0, askPrice := 0,
    askSize := 0 }

/-- Scenario for the single-subscriber delivery claim: one client connected
to a server whose upstream session is ready. -/
def c1State0 : ServerState := (emptyServer (some pcReady)).registerClient (mkClient 0 0)

/-- The client has sent subscribe with channel trades and symbols [AAPL]. -/
def c1State1 : ServerState := c1State0.clientSubscribe 0 "trades" ["AAPL"] 1

/-- A trade for AAPL has then arrived from upstream and been broadcast. -/
def c1State2 : ServerState := c1State1.handlePolygonMessage tradeAAPL 2

/-- Scenario for the reference-counting claim: two clients, upstream ready. -/
def c2State0 : ServerState :=
  ((emptyServer (some pcReady)).registerClient (mkClient 0 0)).registerClient
    (mkClient 1 0)

/-- Both clients have subscribed to trades for AAPL. -/
def c2State2 : ServerState :=
  (c2State0.clientSubscribe 0 "trades" ["AAPL"] 1).clientSubscribe 1 "trades" ["AAPL"] 2

/-- Both clients have then unsubscribed from the trades channel. -/
def c2State4 : ServerState :=
  (c2State2.clientUnsubscribe 0 "trades" 3).clientUnsubscribe 1 "trades" 4

/-- Scenario for the refcount-soundness invariant: the sole client
subscribes to trades for AAPL and then disconnects. -/
def c3State : ServerState :=
  (((emptyServer (some pcReady)).registerClient (mkClient 0 0)).clientSubscribe
    0 "trades" ["AAPL"] 1).unregisterClient 0

/-- Scenario for the unsubscribe-routing claim: one client, upstream
disabled (nil), holding both the ALL-scope trades key and the AAPL-scoped
trades key. -/
def c4State2 : ServerState :=
  (((emptyServer none).registerClient (mkClient 0 0)).clientSubscribe 0 "trades" [] 1
    ).clientSubscribe 0 "trades" ["AAPL"] 2

/-- The client has then unsubscribed the AAPL-scoped trades key. -/
def c4State3 : ServerState := c4State2.clientUnsubscribe 0 "trades:AAPL" 3

/-- A trade for AAPL has then arrived and been broadcast. -/
def c4State4 : ServerState := c4State3.handlePolygonMessage tradeAAPL 4

/-- A message used to fill an outbound queue. -/
def dummyData : Message :=
  { type := "market-data", channel := "trades", data := some tradeAAPL,
    timestamp := 0, symbols := ["AAPL"] }

/-- A client whose outbound queue is full to its 256-message capacity. -/
def fullClient : Client :=
  { id := 0, subscriptions := ["trades"], send := List.replicate sendCap dummyData,
    sendClosed := false, lastSeen := 0 }

/-- Scenario for the stale-sweeper claim: a client that subscribed to
trades for AAPL (the only holder of AAPL) and then went quiet. -/
def c9State0 : ServerState :=
  ((emptyServer (some pcReady)).registerClient (mkClient 0 0)).clientSubscribe
    0 "trades" ["AAPL"] 1

/-- The sweeper tick fires 121 seconds after the client was last seen. -/
def c9State1 : ServerState := c9State0.cleanupSweep 121

/-- Scenario for the first-symbol-key claim: a subscribe intent on the
aggregates channel carrying two symbols, upstream ready. -/
def c10State : ServerState :=
  ((emptyServer (some pcReady)).registerClient (mkClient 0 0)).clientSubscribe
    0 "aggregates" ["AAPL", "TSLA"] 1

/-! Helper lemmas about the embedding. -/

theorem Client.sendMessage_id (c : Client) (m : Message) :
    (c.sendMessage m).id = c.id := by
  unfold Client.sendMessage
  split
  · rfl
  · split <;> rfl

theorem Client.sendMessage_of_full (c : Client) (m : Message)
    (h : sendCap ≤ c.send.length) : c.sendMessage m = c := by
  unfold Client.sendMessage
  split
  · rfl
  · rw [if_neg (Nat.not_lt.2 h)]

theorem sendRepeat_of_full (c : Client) (m : Message) (n : Nat)
    (h : sendCap ≤ c.send.length) : sendRepeat m n c = c := by
  induction n with
  | zero => rfl
  | succ k ih =>
    show sendRepeat m k (c.sendMessage m) = c
    rw [Client.sendMessage_of_full c m h]
    exact ih

theorem find?_map_fixed (g : Client → Client) (cid : Nat)
    (hid : ∀ c, (g c).id = c.id) (hfix : ∀ c, c.id = cid → g c = c) :
    ∀ l : List Client,
      (l.map g).find? (fun c => c.id == cid) = l.find? (fun c => c.id == cid)
  | [] => rfl
  | c :: l => by
    by_cases h : c.id = cid
    · rw [List.map_cons, List.find?_cons_of_pos _ (by simp [hid, h]),
        List.find?_cons_of_pos _ (by simp [h]), hfix c h]
    · rw [List.map_cons, List.find?_cons_of_neg _ (by simp [hid, h]),
        List.find?_cons_of_neg _ (by simp [h]),
        find?_map_fixed g cid hid hfix l]

theorem ServerState.updateClient_subscriptions (st : ServerState) (cid : Nat)
    (f : Client → Client) :
    (st.updateClient cid f).subscriptions = st.subscriptions := rfl

theorem ServerState.updateClient_polygonSymbols (st : ServerState) (cid : Nat)
    (f : Client → Client) :
    (st.updateClient cid f).polygonSymbols = st.polygonSymbols := rfl

theorem ServerState.updateClient_polygon (st : ServerState) (cid : Nat)
    (f : Client → Client) : (st.updateClient cid f).polygon = st.polygon := rfl

theorem ServerState.sendToClient_subscriptions (st : ServerState) (cid : Nat)
    (m : Message) : (st.sendToClient cid m).subscriptions = st.subscriptions := rfl

theorem ServerState.sendToClient_polygonSymbols (st : ServerState) (cid : Nat)
    (m : Message) : (st.sendToClient cid m).polygonSymbols = st.polygonSymbols := rfl

theorem ServerState.subscribeToPolygon_subscriptions (st : ServerState)
    (symbols : List String) :
    (st.subscribeToPolygon symbols).subscriptions = st.subscriptions := by
  unfold ServerState.subscribeToPolygon
  split
  · rfl
  · split <;> rfl

theorem clientQueue_sendToClient_ne (st : ServerState) (cid cid2 : Nat) (m : Message)
    (h : cid2 ≠ cid) :
    (st.sendToClient cid m).clientQueue cid2 = st.clientQueue cid2 := by
  unfold ServerState.clientQueue ServerState.sendToClient ServerState.updateClient
  rw [find?_map_fixed _ cid2 ?_ ?_ st.clients]
  · intro c
    by_cases hc : c.id = cid
    · simp [hc, Client.sendMessage_id]
    · simp [hc]
  · intro c hc
    rw [if_neg (by rw [hc]; exact h)]

theorem clientQueue_deliverBroadcast_not_subscribed (st : ServerState) (msg : Message)
    (cid : Nat) (h : cid ∉ st.subscriptions msg.channel) :
    (st.deliverBroadcast msg).clientQueue cid = st.clientQueue cid := by
  unfold ServerState.clientQueue ServerState.deliverBroadcast
  rw [find?_map_fixed _ cid ?_ ?_ st.clients]
  · intro c
    by_cases hc : c.id ∈ st.subscriptions msg.channel
    · simp [hc, Client.sendMessage_id]
    · simp [hc]
  · intro c hc
    rw [if_neg (by rw [hc]; exact h)]

theorem setAt_le (counts : String → Nat) (x s : String) (v : Nat)
    (hv : counts x ≤ v) : counts s ≤ setAt counts x v s := by
  unfold setAt
  split
  · rename_i hsx
    rw [hsx]
    exact hv
  · exact le_refl _

theorem acquireSymbols_le :
    ∀ (l : List String) (counts : String → Nat) (s : String),
      counts s ≤ (acquireSymbols counts l).1 s
  | [], _, _ => le_refl _
  | x :: l, counts, s => by
    unfold acquireSymbols
    by_cases h : 0 < counts x
    · rw [if_pos h]
      exact le_trans (setAt_le counts x s _ (Nat.le_succ _)) (acquireSymbols_le l _ s)
    · rw [if_neg h]
      exact le_trans (setAt_le counts x s 1 (by omega)) (acquireSymbols_le l _ s)

theorem acquireSymbols_mem :
    ∀ (l : List String) (counts : String → Nat) (s : String), s ∈ l →
      counts s + 1 ≤ (acquireSymbols counts l).1 s
  | [], _, s, hmem => absurd hmem (List.not_mem_nil s)
  | x :: l, counts, s, hmem => by
    unfold acquireSymbols
    rcases List.mem_cons.1 hmem with rfl | h2
    · by_cases h : 0 < counts s
      · rw [if_pos h]
        refine le_trans ?_ (acquireSymbols_le l _ s)
        unfold setAt
        rw [if_pos rfl]
      · rw [if_neg h]
        refine le_trans ?_ (acquireSymbols_le l _ s)
        unfold setAt
        rw [if_pos rfl]
        omega
    · by_cases h : 0 < counts x
      · rw [if_pos h]
        refine le_trans ?_ (acquireSymbols_mem l _ s h2)
        have := setAt_le counts x s (counts x + 1) (Nat.le_succ _)
        omega
      · rw [if_neg h]
        refine le_trans ?_ (acquireSymbols_mem l _ s h2)
        have := setAt_le counts x s 1 (by omega)
        omega

theorem foldl_append_eq_flatten (g : String → List String) :
    ∀ (l : List String) (init : List String),
      l.foldl (fun acc s => acc ++ g s) init = init ++ (l.map g).flatten
  | [], init => by simp
  | x :: l, init => by
    rw [List.foldl_cons, foldl_append_eq_flatten g l (init ++ g x)]
    simp [List.append_assoc]

theorem mem_foldl_insertOnce_left :
    ∀ (l acc : List String) (s : String), s ∈ acc → s ∈ l.foldl insertOnce acc
  | [], _, _, h => h
  | x :: l, acc, s, h => by
    rw [List.foldl_cons]
    apply mem_foldl_insertOnce_left l
    unfold insertOnce
    split
    · exact h
    · exact List.mem_append_left _ h

theorem mem_foldl_insertOnce :
    ∀ (l acc : List String) (s : String), s ∈ l → s ∈ l.foldl insertOnce acc
  | [], _, s, h => absurd h (List.not_mem_nil s)
  | x :: l, acc, s, h => by
    rw [List.foldl_cons]
    rcases List.mem_cons.1 h with rfl | h2
    · apply mem_foldl_insertOnce_left
      unfold insertOnce
      split
      · assumption
      · exact List.mem_append_right _ (List.mem_singleton.2 rfl)
    · exact mem_foldl_insertOnce l _ s h2

theorem setAt_ne {α : Type} (m : String → α) (x k : String) (v : α) (hk : k ≠ x) :
    setAt m x v k = m k := by
  unfold setAt
  rw [if_neg hk]

theorem clientSubscribe_subscriptions_ne (st : ServerState) (cid : Nat) (ch : String)
    (symbols : List String) (now : Int) (k : String)
    (hk : k ≠ subscriptionKey ch symbols) :
    (st.clientSubscribe cid ch symbols now).subscriptions k = st.subscriptions k := by
  unfold ServerState.clientSubscribe
  dsimp only
  rw [ServerState.sendToClient_subscriptions]
  split
  · rw [ServerState.subscribeToPolygon_subscriptions]
    exact setAt_ne _ _ _ _ hk
  · exact setAt_ne _ _ _ _ hk

theorem mem_setAt_self_insert (f : String → List Nat) (k : String) (cid : Nat) :
    cid ∈ setAt f k (if cid ∈ f k then f k else f k ++ [cid]) k := by
  unfold setAt
  rw [if_pos rfl]
  split
  · assumption
  · exact List.mem_append_right _ (List.mem_singleton.2 rfl)

theorem clientSubscribe_registry_mem (st : ServerState) (cid : Nat) (ch : String)
    (symbols : List String) (now : Int) :
    cid ∈ (st.clientSubscribe cid ch symbols now).subscriptions
      (subscriptionKey ch symbols) := by
  unfold ServerState.clientSubscribe
  dsimp only
  rw [ServerState.sendToClient_subscriptions]
  split
  · rw [ServerState.subscribeToPolygon_subscriptions]
    exact mem_setAt_self_insert _ _ _
  · exact mem_setAt_self_insert _ _ _

theorem clientSubscribe_polygonSymbols_other (st : ServerState) (cid : Nat)
    (ch : String) (symbols : List String) (now : Int)
    (hch : ¬(symbols ≠ [] ∧ (ch = "trades" ∨ ch = "quotes" ∨ ch = "market-data")))
    (sym : String) :
    (st.clientSubscribe cid ch symbols now).polygonSymbols sym
      = st.polygonSymbols sym := by
  unfold ServerState.clientSubscribe
  dsimp only
  rw [ServerState.sendToClient_polygonSymbols, if_neg hch]
  rfl

theorem subscribeToPolygon_polygonSymbols_proj (st2 st : ServerState)
    (symbols : List String) (hp : st2.polygon = st.polygon)
    (hc : st2.polygonSymbols = st.polygonSymbols) :
    (st2.subscribeToPolygon symbols).polygonSymbols
      = (st.subscribeToPolygon symbols).polygonSymbols := by
  unfold ServerState.subscribeToPolygon
  rw [hp]
  cases st.polygon with
  | none => exact hc
  | some pc =>
    dsimp only
    split
    · rw [hc]
    · exact hc

theorem subscribeToPolygon_acquired (st : ServerState) (symbols : List String)
    (pc : PolygonClient) (hpc : st.polygon = some pc) (hconn : pc.IsConnected = true) :
    ∀ sym ∈ symbols, st.polygonSymbols sym + 1
      ≤ (st.subscribeToPolygon symbols).polygonSymbols sym := by
  intro sym hmem
  unfold ServerState.subscribeToPolygon
  rw [hpc]
  dsimp only
  rw [if_pos hconn]
  exact acquireSymbols_mem symbols _ sym hmem

theorem clientSubscribe_polygonSymbols_acquired (st : ServerState) (cid : Nat)
    (ch : String) (s : String) (rest : List String) (now : Int) (pc : PolygonClient)
    (hpc : st.polygon = some pc) (hconn : pc.IsConnected = true)
    (hch : ch = "trades" ∨ ch = "quotes" ∨ ch = "market-data") :
    ∀ sym ∈ s :: rest,
      st.polygonSymbols sym + 1
        ≤ (st.clientSubscribe cid ch (s :: rest) now).polygonSymbols sym := by
  intro sym hmem
  unfold ServerState.clientSubscribe
  dsimp only
  rw [ServerState.sendToClient_polygonSymbols,
    if_pos ⟨List.cons_ne_nil s rest, hch⟩]
  refine le_trans (subscribeToPolygon_acquired st (s :: rest) pc hpc hconn sym hmem)
    (le_of_eq (congrFun
      (subscribeToPolygon_polygonSymbols_proj _ st (s :: rest) ?_ ?_).symm sym))
  · rfl
  · rfl

/-! Theorems settling the claims. -/

/-- C1: the session that sent subscribe with channel trades and symbols
[AAPL] is registered only under the key "trades:AAPL", while the broadcast
step routes a trade event by the exact channel string "trades"; evaluating
the code on the documented scenario shows the promised market-data message
is never delivered — after the broadcast the session's queue still holds
only the subscribed confirmation. -/
theorem c1_symbol_subscriber_not_delivered :
    c1State2.clientQueue 0 =
      [{ type := "subscribed", channel := "trades", data := none, timestamp := 1,
         symbols := ["AAPL"] }] ∧
    (TransformPolygonMessage tradeAAPL 2).channel = "trades" ∧
    c1State2.subscriptions "trades" = [] ∧
    c1State2.subscriptions "trades:AAPL" = [0] :=
  ⟨rfl, rfl, rfl, rfl⟩

/-- C2: with two sessions subscribed to trades for AAPL, exactly one
upstream subscribe frame is emitted, as claimed; but after both sessions
unsubscribe, the frame log is unchanged (no upstream unsubscribe is ever
sent, since the client unsubscribe path never calls unsubscribeFromPolygon)
and the AAPL refcount still reads 2. -/
theorem c2_last_unsubscribe_sends_no_upstream_release :
    c2State2.upstreamFrames = [Frame.mk "subscribe" "T.AAPL,Q.AAPL,A.AAPL"] ∧
    c2State4.upstreamFrames = [Frame.mk "subscribe" "T.AAPL,Q.AAPL,A.AAPL"] ∧
    c2State4.polygonSymbols "AAPL" = 2 :=
  ⟨rfl, rfl, rfl⟩

/-- C3: after the only session covering AAPL is destroyed, the refcount of
AAPL still reads 1 while zero live sessions cover it, and the entry is still
present — unregisterClient removes the session from the routing table but
never decrements the symbol reference counts. -/
theorem c3_teardown_leaks_refcount :
    c3State.clients = [] ∧
    c3State.sessionsCovering "AAPL" = 0 ∧
    c3State.polygonSymbols "AAPL" = 1 ∧
    c3State.upstreamFrames = [Frame.mk "subscribe" "T.AAPL,Q.AAPL,A.AAPL"] :=
  ⟨rfl, rfl, rfl, rfl⟩

/-- C4 counterexample: a session holding both the ALL-scope trades key and
the AAPL-scoped trades key unsubscribes the AAPL-scoped key; a later trade
event for AAPL matches that unsubscribed key under the spec's matching
rule, yet it is still delivered to the session (through its retained bare
trades key) — refuting the claim that no subsequently broadcast event
matching the key is ever delivered. -/
theorem c4_matching_event_delivered_after_unsubscribe :
    specKeyMatches "trades:AAPL" tradeAAPL = true ∧
    c4State3.clientKeys 0 = ["trades"] ∧
    c4State4.clientQueue 0 =
      [{ type := "subscribed", channel := "trades", data := none, timestamp := 1,
         symbols := [] },
       { type := "subscribed", channel := "trades", data := none, timestamp := 2,
         symbols := ["AAPL"] },
       { type := "unsubscribed", channel := "trades:AAPL", data := none,
         timestamp := 3, symbols := [] },
       TransformPolygonMessage tradeAAPL 4] :=
  ⟨rfl, rfl, rfl⟩

/-- C4 amended: processing an unsubscribe for a channel key removes the
session from the registry entry of that key before the unsubscribed
confirmation is enqueued, and afterwards no broadcast message carried on
that exact key is delivered to the session; events matching the key may
still reach the session through a different key it retains. -/
theorem c4_unsubscribed_key_not_routed (st : ServerState) (cid : Nat) (ch : String)
    (now : Int) (msg : Message) (hmsg : msg.channel = ch) :
    cid ∉ (st.unsubscribeRegistryUpdate cid ch).subscriptions ch ∧
    st.clientUnsubscribe cid ch now =
      (st.unsubscribeRegistryUpdate cid ch).sendToClient cid
        { type := "unsubscribed", channel := ch, data := none, timestamp := now,
          symbols := [] } ∧
    ((st.clientUnsubscribe cid ch now).deliverBroadcast msg).clientQueue cid =
      (st.clientUnsubscribe cid ch now).clientQueue cid := by
  have hmem : ∀ st2 : ServerState,
      cid ∉ (st2.unsubscribeRegistryUpdate cid ch).subscriptions ch := by
    intro st2
    unfold ServerState.unsubscribeRegistryUpdate
    dsimp only
    rw [setAt]
    simp [List.mem_filter]
  refine ⟨hmem st, rfl, ?_⟩
  apply clientQueue_deliverBroadcast_not_subscribed
  rw [hmsg]
  unfold ServerState.clientUnsubscribe
  rw [ServerState.sendToClient_subscriptions]
  exact hmem st

/-- Witness for the amended unsubscribe-routing theorem at a concrete
state, key and broadcast message. -/
theorem c4_unsubscribed_key_not_routed_witness :
    (0 : Nat) ∉ (c4State2.unsubscribeRegistryUpdate 0 "trades").subscriptions "trades" ∧
    c4State2.clientUnsubscribe 0 "trades" 3 =
      (c4State2.unsubscribeRegistryUpdate 0 "trades").sendToClient 0
        { type := "unsubscribed", channel := "trades", data := none, timestamp := 3,
          symbols := [] } ∧
    ((c4State2.clientUnsubscribe 0 "trades" 3).deliverBroadcast
        dummyData).clientQueue 0 =
      (c4State2.clientUnsubscribe 0 "trades" 3).clientQueue 0 :=
  c4_unsubscribed_key_not_routed c4State2 0 "trades" 3 dummyData rfl

/-- C5 counterexample: at the seventh reconnect attempt (retryCount 6, below
the maxRetries of 10) the scheduled delay is 5 × 7 = 35 seconds, above the
claimed 30-second ceiling — the code applies no cap. -/
theorem c5_uncapped_delay_at_attempt_seven :
    pcAttempt6.retryCount < pcAttempt6.maxRetries ∧
    pcAttempt6.scheduleReconnect.2 = some 35 ∧
    ¬(35 ≤ 30) :=
  ⟨by decide, rfl, by decide⟩

/-- C5 amended: the reconnect delay is base delay × attempt number with no
ceiling; the attempt counter is reset to zero on a successful dial, before
authentication (so it reads 0 after an authenticated connect but 1 after a
failed-auth connect, rather than being reset exactly on successful auth);
and once retryCount has reached maxRetries no reconnect is scheduled. -/
theorem c5_backoff_linear_reset_on_dial (pc : PolygonClient)
    (h : pc.retryCount < pc.maxRetries) :
    pc.scheduleReconnect =
      ({ pc with retryCount := pc.retryCount + 1 },
        some (pc.reconnectDelay * (pc.retryCount + 1))) ∧
    (pc.ConnectOutcome true true).1.retryCount = 0 ∧
    (pc.ConnectOutcome true false).1.retryCount = 1 ∧
    ({ pc with retryCount := pc.maxRetries } : PolygonClient).scheduleReconnect =
      ({ pc with retryCount := pc.maxRetries }, none) := by
  have hmax : ¬(pc.maxRetries ≤ 0) := by omega
  refine ⟨?_, rfl, ?_, ?_⟩
  · unfold PolygonClient.scheduleReconnect
    rw [if_neg (Nat.not_le.2 h)]
  · unfold PolygonClient.ConnectOutcome PolygonClient.scheduleReconnect
    simp [hmax]
  · unfold PolygonClient.scheduleReconnect
    rw [if_pos (le_refl _)]

/-- Witness for the backoff theorem at the client on its seventh attempt. -/
theorem c5_backoff_linear_reset_on_dial_witness :
    pcAttempt6.scheduleReconnect =
      ({ pcAttempt6 with retryCount := pcAttempt6.retryCount + 1 },
        some (pcAttempt6.reconnectDelay * (pcAttempt6.retryCount + 1))) ∧
    (pcAttempt6.ConnectOutcome true true).1.retryCount = 0 ∧
    (pcAttempt6.ConnectOutcome true false).1.retryCount = 1 ∧
    ({ pcAttempt6 with retryCount := pcAttempt6.maxRetries } :
        PolygonClient).scheduleReconnect =
      ({ pcAttempt6 with retryCount := pcAttempt6.maxRetries }, none) :=
  c5_backoff_linear_reset_on_dial pcAttempt6 (by decide)

/-- C6 counterexample: on a fresh client whose dial succeeds but whose
authentication is refused, Connect returns an error and a reconnect is
nevertheless scheduled (with the base 5-second delay) by the reader
teardown — refuting the claim that no reconnect is ever scheduled after an
explicit auth failure. -/
theorem c6_reconnect_scheduled_after_auth_failure :
    ((NewPolygonClient "key").ConnectOutcome true false).2.1 = true ∧
    ((NewPolygonClient "key").ConnectOutcome true false).1.authenticated = false ∧
    ((NewPolygonClient "key").ConnectOutcome true false).2.2 = some 5 :=
  ⟨rfl, rfl, rfl⟩

/-- C6 amended: when authentication fails, Connect returns an error and the
session is left unauthenticated and disconnected, but closing the socket
makes the reader goroutine schedule a reconnect (delay base × 1, since the
dial reset the counter) whenever maxRetries is positive; only once
retryCount has reached maxRetries is no further reconnect scheduled. -/
theorem c6_auth_failure_schedules_reconnect (pc : PolygonClient)
    (h : 0 < pc.maxRetries) :
    (pc.ConnectOutcome true false).2.1 = true ∧
    (pc.ConnectOutcome true false).1.authenticated = false ∧
    (pc.ConnectOutcome true false).1.connected = false ∧
    (pc.ConnectOutcome true false).2.2 = some pc.reconnectDelay ∧
    ({ pc with retryCount := pc.maxRetries } : PolygonClient).scheduleReconnect =
      ({ pc with retryCount := pc.maxRetries }, none) := by
  have hmax : ¬(pc.maxRetries ≤ 0) := by omega
  refine ⟨?_, ?_, ?_, ?_, ?_⟩
  · unfold PolygonClient.ConnectOutcome PolygonClient.scheduleReconnect
    simp [hmax]
  · unfold PolygonClient.ConnectOutcome PolygonClient.scheduleReconnect
    simp [hmax]
  · unfold PolygonClient.ConnectOutcome PolygonClient.scheduleReconnect
    simp [hmax]
  · unfold PolygonClient.ConnectOutcome PolygonClient.scheduleReconnect
    simp [hmax]
  · unfold PolygonClient.scheduleReconnect
    rw [if_pos (le_refl _)]

/-- Witness for the auth-failure theorem at a fresh client. -/
theorem c6_auth_failure_schedules_reconnect_witness :
    ((NewPolygonClient "key").ConnectOutcome true false).2.1 = true ∧
    ((NewPolygonClient "key").ConnectOutcome true false).1.authenticated = false ∧
    ((NewPolygonClient "key").ConnectOutcome true false).1.connected = false ∧
    ((NewPolygonClient "key").ConnectOutcome true false).2.2 =
      some (NewPolygonClient "key").reconnectDelay ∧
    ({ NewPolygonClient "key" with
        retryCount := (NewPolygonClient "key").maxRetries } :
        PolygonClient).scheduleReconnect =
      ({ NewPolygonClient "key" with
          retryCount := (NewPolygonClient "key").maxRetries }, none) :=
  c6_auth_failure_schedules_reconnect (NewPolygonClient "key") (by decide)

/-- C7 counterexample: one thousand consecutive enqueue attempts on a
session whose queue is full leave the session literally unchanged — in
particular it is not closed and no component of its state could have served
as a slow-consumer counter, refuting the claimed counter increment and
threshold-based close. -/
theorem c7_thousand_drops_leave_session_unchanged :
    sendRepeat dummyData 1000 fullClient = fullClient ∧
    fullClient.sendClosed = false ∧
    fullClient.send.length = sendCap :=
  ⟨sendRepeat_of_full fullClient dummyData 1000 (by simp [fullClient]),
   rfl, by simp [fullClient]⟩

/-- C7 amended: the enqueue is a non-blocking try-send — on a full queue
the message is dropped and the session is unchanged (so it stays open and
nothing is counted), and an enqueue directed at one session never alters
any other session's queue. -/
theorem c7_try_send_drops_without_blocking (c : Client) (m : Message)
    (st : ServerState) (cid cid2 : Nat) (hne : cid2 ≠ cid)
    (hfull : sendCap ≤ c.send.length) :
    c.sendMessage m = c ∧
    (st.sendToClient cid m).clientQueue cid2 = st.clientQueue cid2 :=
  ⟨Client.sendMessage_of_full c m hfull,
   clientQueue_sendToClient_ne st cid cid2 m hne⟩

/-- Witness for the try-send theorem at a full client and a concrete
two-client server. -/
theorem c7_try_send_drops_without_blocking_witness :
    fullClient.sendMessage dummyData = fullClient ∧
    (c2State0.sendToClient 0 dummyData).clientQueue 1 = c2State0.clientQueue 1 :=
  c7_try_send_drops_without_blocking fullClient dummyData c2State0 0 1
    (by decide) (by simp [fullClient])

/-- C8: upstream Subscribe requires the authenticated precondition (it
fails when the flag is down), and on a ready session it emits exactly one
subscribe frame whose params comma-join the tokens T.S, Q.S, A.S for each
symbol in order, while every listed symbol is added to the
subscribed-symbols set. -/
theorem c8_upstream_subscribe_frame (pc : PolygonClient) (symbols : List String)
    (hc : pc.connected = true) (ha : pc.authenticated = true)
    (_hne : symbols ≠ []) :
    (∃ pc2, pc.Subscribe symbols = .ok pc2 ∧
      pc2.sent = pc.sent ++
        [Frame.mk "subscribe"
          (String.intercalate "," ((symbols.map symbolTokens)).flatten)] ∧
      (∀ s ∈ symbols, s ∈ pc2.subscriptions)) ∧
    ({ pc with authenticated := false } : PolygonClient).Subscribe symbols =
      .error "not connected or authenticated" := by
  constructor
  · unfold PolygonClient.Subscribe
    rw [hc, ha]
    dsimp only
    refine ⟨_, rfl, ?_, ?_⟩
    · rw [foldl_append_eq_flatten symbolTokens symbols []]
      rw [List.nil_append]
    · intro s hs
      exact mem_foldl_insertOnce symbols pc.subscriptions s hs
  · unfold PolygonClient.Subscribe
    simp

/-- Witness for the upstream Subscribe theorem at a ready client and two
symbols. -/
theorem c8_upstream_subscribe_frame_witness :
    (∃ pc2, pcReady.Subscribe ["AAPL", "TSLA"] = .ok pc2 ∧
      pc2.sent = pcReady.sent ++
        [Frame.mk "subscribe"
          (String.intercalate "," (((["AAPL", "TSLA"] : List String).map
            symbolTokens)).flatten)] ∧
      (∀ s ∈ (["AAPL", "TSLA"] : List String), s ∈ pc2.subscriptions)) ∧
    ({ pcReady with authenticated := false } : PolygonClient).Subscribe
        ["AAPL", "TSLA"] =
      .error "not connected or authenticated" :=
  c8_upstream_subscribe_frame pcReady ["AAPL", "TSLA"] rfl rfl (by decide)

/-- C9: the sweeper closes the session whose last-seen is 121 seconds old
and its teardown removes it from the client table and the routing table, as
claimed; but the AAPL refcount it held alone still reads 1 and the upstream
frame log shows no unsubscribe was ever sent — the claimed upstream release
of symbols referenced only by the closed session does not happen. -/
theorem c9_stale_close_without_upstream_release :
    c9State1.clients = [] ∧
    c9State1.subscriptions "trades:AAPL" = [] ∧
    c9State1.polygonSymbols "AAPL" = 1 ∧
    c9State1.upstreamFrames = [Frame.mk "subscribe" "T.AAPL,Q.AAPL,A.AAPL"] :=
  ⟨rfl, rfl, rfl, rfl⟩

/-- C10 counterexample: a subscribe intent on channel aggregates with
symbols [AAPL, TSLA] records only the key "aggregates:AAPL", but acquires
neither symbol in the upstream reference counts (both still read 0 although
the upstream session is connected) — aggregates is missing from the
channel set that triggers subscribeToPolygon. -/
theorem c10_aggregates_symbols_not_acquired :
    c10State.clientKeys 0 = ["aggregates:AAPL"] ∧
    c10State.polygonSymbols "AAPL" = 0 ∧
    c10State.polygonSymbols "TSLA" = 0 ∧
    c10State.polygon = some pcReady ∧
    pcReady.IsConnected = true :=
  ⟨rfl, rfl, rfl, rfl, rfl⟩

/-- C10 amended: a subscribe intent with several symbols records the
session only under channel:first-symbol — the registry is untouched at
every other key, while the first-symbol key does gain the session — and
when the channel is one of trades, quotes or market-data and the upstream
session is connected, every listed symbol's reference count is raised; for
any other channel (aggregates in particular) no symbol is acquired at
all. -/
theorem c10_first_symbol_key_acquire_scope (st : ServerState) (cid : Nat)
    (ch s : String) (rest : List String) (now : Int) (pc : PolygonClient)
    (hpc : st.polygon = some pc) (hconn : pc.IsConnected = true)
    (hch : ch = "trades" ∨ ch = "quotes" ∨ ch = "market-data") :
    (∀ k, k ≠ ch ++ ":" ++ s →
      (st.clientSubscribe cid ch (s :: rest) now).subscriptions k
        = st.subscriptions k) ∧
    cid ∈ (st.clientSubscribe cid ch (s :: rest) now).subscriptions
      (ch ++ ":" ++ s) ∧
    (∀ sym ∈ s :: rest,
      st.polygonSymbols sym + 1
        ≤ (st.clientSubscribe cid ch (s :: rest) now).polygonSymbols sym) ∧
    (∀ sym, (st.clientSubscribe cid "aggregates" (s :: rest) now).polygonSymbols sym
      = st.polygonSymbols sym) := by
  refine ⟨?_, ?_, ?_, ?_⟩
  · intro k hk
    exact clientSubscribe_subscriptions_ne st cid ch (s :: rest) now k hk
  · exact clientSubscribe_registry_mem st cid ch (s :: rest) now
  · exact clientSubscribe_polygonSymbols_acquired st cid ch s rest now pc hpc hconn hch
  · intro sym
    refine clientSubscribe_polygonSymbols_other st cid "aggregates" (s :: rest) now
      ?_ sym
    rintro ⟨-, h | h | h⟩ <;> simp at h

/-- Witness for the first-symbol-key theorem at a concrete server, channel
trades and symbols [AAPL, TSLA]. -/
theorem c10_first_symbol_key_acquire_scope_witness :
    (∀ k, k ≠ "trades" ++ ":" ++ "AAPL" →
      (c2State0.clientSubscribe 0 "trades" ("AAPL" :: ["TSLA"]) 1).subscriptions k
        = c2State0.subscriptions k) ∧
    (0 : Nat) ∈ (c2State0.clientSubscribe 0 "trades" ("AAPL" :: ["TSLA"])
      1).subscriptions ("trades" ++ ":" ++ "AAPL") ∧
    (∀ sym ∈ "AAPL" :: ["TSLA"],
      c2State0.polygonSymbols sym + 1
        ≤ (c2State0.clientSubscribe 0 "trades" ("AAPL" :: ["TSLA"])
            1).polygonSymbols sym) ∧
    (∀ sym, (c2State0.clientSubscribe 0 "aggregates" ("AAPL" :: ["TSLA"])
        1).polygonSymbols sym
      = c2State0.polygonSymbols sym) :=
  c10_first_symbol_key_acquire_scope c2State0 0 "trades" "AAPL" ["TSLA"] 1 pcReady
    rfl rfl (Or.inl rfl)

end NexuralFlow
